import Mathlib

/-! GreenLife node (`led_control_webserver.c`): state and feedback core.

A shallow embedding of the device state and feedback logic of
`src/led_control_webserver.c`.

Modelling conventions.

* A sensor reading (`float` in the source) is a rational number.  The readers
  `ler_temperatura_*` / `ler_umidade_joystick` compute their result from a
  16-bit sample, so every reading is a finite float, whose value is a rational;
  the only float operations of the modelled code are comparisons against the
  constants 10, 20, 40, 50, 80, which are exact.  The readings used in the
  examples (5, 25, 45, 50, 90) are floats.
* A `uint64_t` microsecond timestamp is a natural number below `2 ^ 64`;
  subtraction wraps (`sub64`).
* The global variables and the function-local `static` of the source are the
  fields of `Estado`; PWM levels are recorded per GPIO number; what `printf`
  writes is appended to `terminal`.
* A C `char` array is a `List Char`, `NUL` being the terminator.
* The endless loop of `main` and the handlers it registers are a step relation
  on `Config` (`habilitado`, `efeito`); `Alcancavel` is what the firmware
  reaches.  Readings and timestamps of the steps are arbitrary.
-/

set_option linter.unusedVariables false
set_option maxRecDepth 100000

namespace GreenLife

/-! ## Constants (`#define`) -/

def BOTAO_MODO : Nat := 5
def LED_VERMELHO : Nat := 13
def LED_VERDE : Nat := 11
def LED_AZUL : Nat := 12
def BUZZER : Nat := 21
def NUM_LEDS : Nat := 25

/-- String terminator of C. -/
def NUL : Char := Char.ofNat 0

/-! ## Global state -/

/-- Globals of the program, the `static` local `tempo_inicio_alerta` of
`atualizar_feedback_visual`, the PWM level of each GPIO and the terminal. -/
structure Estado where
  modo_manual : Bool
  ultima_troca_modo : Nat
  debounce_antes : Nat
  alarme_ativo : Bool
  exibir_temp : Bool
  exibir_umidade : Bool
  tempo_inicio_alerta : Nat
  pwm : Nat → Nat
  terminal : List String

/-- State after start-up: the initialisers of the globals, every PWM level 0
(`configurar_pwm`), nothing printed yet. -/
def estado_inicial : Estado :=
  { modo_manual := false
    ultima_troca_modo := 0
    debounce_antes := 0
    alarme_ativo := false
    exibir_temp := false
    exibir_umidade := false
    tempo_inicio_alerta := 0
    pwm := fun _ => 0
    terminal := [] }

/-- Subtraction of `uint64_t`. -/
def sub64 (a b : Nat) : Nat := (a % 2 ^ 64 + 2 ^ 64 - b % 2 ^ 64) % 2 ^ 64

/-- SDK call `pwm_set_gpio_level(gpio, level)`. -/
def pwm_set_gpio_level (gpio level : Nat) (st : Estado) : Estado :=
  { st with pwm := fun g => if g = gpio then level else st.pwm g }

/-- Library call `printf`, with the text already formatted. -/
def printf (linha : String) (st : Estado) : Estado :=
  { st with terminal := st.terminal ++ [linha] }

/-! ## C strings -/

/-- Library call `strncpy(dst, src, n)`: exactly `n` bytes of `dst` are written,
the bytes of `src` (which carries no terminator here) and then NUL padding. -/
def strncpy (dst src : List Char) (n : Nat) : List Char :=
  src.take n ++ List.replicate (n - src.length) NUL ++ dst.drop n

/-- The string a `char` array holds: the bytes before the first NUL. -/
def cstr (buf : List Char) : List Char := buf.takeWhile (fun c => c != NUL)

/-- Library call `strncmp(s1, s2, n)` on NUL-terminated arrays; the result is the
difference of the first differing bytes, 0 when there is none. -/
def strncmp : List Char → List Char → Nat → Int
  | _, _, 0 => 0
  | s1, s2, n + 1 =>
    let c1 := s1.headD NUL
    let c2 := s2.headD NUL
    if c1 != c2 then (c1.toNat : Int) - (c2.toNat : Int)
    else if c1 == NUL then 0
    else strncmp s1.tail s2.tail n

/-! ## Classifier -/

/-- Source function `interpretar_estado_planta(temp, umid, msg, tamanho)`; the
result is the buffer `msg` after the call. -/
def interpretar_estado_planta (temp umid : ℚ) (msg : List Char) (tamanho : Nat)
    (st : Estado) : List Char :=
  if st.alarme_ativo then
    (strncpy msg "Alarme ligado, aperte o botao A na placa para desativar".toList tamanho).set
      (tamanho - 1) NUL
  else
    let temp_ok : Bool := decide (temp ≥ 20) && decide (temp ≤ 40)
    let umid_ok : Bool := decide (umid ≥ 20) && decide (umid ≤ 80)
    let msg1 :=
      if temp_ok && umid_ok then
        strncpy msg "Sua planta est&aacute; feliz!".toList tamanho
      else if !temp_ok && !umid_ok then
        strncpy msg "Sua planta est&aacute; em perigo!".toList tamanho
      else if !temp_ok then
        strncpy msg
          (if temp < 20 then "Sua planta est&aacute; com frio!".toList
           else "Sua planta est&aacute; com calor!".toList) tamanho
      else if !umid_ok then
        strncpy msg
          (if umid < 20 then "Sua planta est&aacute; com sede!".toList
           else "Excesso de &aacute;gua detectado!".toList) tamanho
      else msg
    msg1.set (tamanho - 1) NUL

/-- Source function `alarme_periodico_callback`: the periodic terminal report.
The three sensor readers are given by the value each returns at this call, and
`fmt2` renders a number as `%.2f` does.  The C function returns `true` on every
path; the result here is the state, whose `terminal` holds what was printed. -/
def alarme_periodico_callback (fmt2 : ℚ → String)
    (ler_temperatura_joystick ler_temperatura_interna ler_umidade_joystick : ℚ)
    (st : Estado) : Estado :=
  let temperatura :=
    if st.modo_manual then ler_temperatura_joystick else ler_temperatura_interna
  let umidade := ler_umidade_joystick
  let st := printf ("[Relatório] Temp: " ++ fmt2 temperatura ++ " °C | Umid: " ++
    fmt2 umidade ++ " %\n") st
  if st.alarme_ativo then
    printf "Alarme ligado, aperte o botao A na placa para desativar\n" st
  else
    let temp_ok : Bool := decide (temperatura ≥ 20) && decide (temperatura ≤ 40)
    let umid_ok : Bool := decide (umidade ≥ 20) && decide (umidade ≤ 80)
    if temp_ok && umid_ok then
      printf "Sua planta esta feliz!\n" st
    else if !temp_ok && !umid_ok then
      printf "Sua planta esta em perigo!\n" st
    else if !temp_ok then
      if temperatura < 20 then printf "Sua planta esta com frio!\n" st
      else printf "Sua planta esta com calor!\n" st
    else if !umid_ok then
      if umidade < 20 then printf "Sua planta esta com sede!\n" st
      else printf "Excesso de agua detectado!\n" st
    else st

/-! ## Alarm and visual feedback -/

/-- Source function `acionar_alarme`: toggles the alarm flag. -/
def acionar_alarme (st : Estado) : Estado :=
  let st := { st with alarme_ativo := !st.alarme_ativo }
  if st.alarme_ativo then
    let st := pwm_set_gpio_level LED_VERDE 0 st
    let st := pwm_set_gpio_level LED_AZUL 0 st
    let st := pwm_set_gpio_level LED_VERMELHO 4095 st
    printf "Alarme ativado!\n" st
  else
    let st := pwm_set_gpio_level BUZZER 0 st
    printf "Alarme desativado!\n" st

/-- Source function `atualizar_feedback_visual(temperatura, umidade)`; `agora`
is the value `to_us_since_boot(get_absolute_time())` returns in this call. -/
def atualizar_feedback_visual (temperatura umidade : ℚ) (agora : Nat) (st : Estado) :
    Estado :=
  let temp_critica : Bool := decide (temperatura < 20) || decide (temperatura > 40)
  let umid_critica : Bool := decide (umidade < 20) || decide (umidade > 80)
  let cond_critica : Bool := temp_critica && umid_critica
  if cond_critica then
    let st := if st.tempo_inicio_alerta = 0 then { st with tempo_inicio_alerta := agora } else st
    let st :=
      if sub64 agora st.tempo_inicio_alerta > 5000000 then
        acionar_alarme (printf "Condição crítica detectada.\n" st)
      else st
    let st := pwm_set_gpio_level LED_VERDE 0 st
    let st := pwm_set_gpio_level LED_AZUL 0 st
    pwm_set_gpio_level LED_VERMELHO 4095 st
  else
    let st := { st with tempo_inicio_alerta := 0 }
    if temp_critica || umid_critica then
      let st := pwm_set_gpio_level LED_VERDE 4095 st
      let st := pwm_set_gpio_level LED_AZUL 0 st
      pwm_set_gpio_level LED_VERMELHO 4095 st
    else
      let st := pwm_set_gpio_level LED_VERDE 4095 st
      let st := pwm_set_gpio_level LED_AZUL 0 st
      pwm_set_gpio_level LED_VERMELHO 0 st

/-- Source function `atualizar_feedback_leds(t, u)`. -/
def atualizar_feedback_leds (t u : ℚ) (agora : Nat) (st : Estado) : Estado :=
  atualizar_feedback_visual t u agora st

/-- Successive polls of the main loop: each entry is the timestamp read in the
call of `atualizar_feedback_leds` and the reading passed to it. -/
def sondagens (ps : List (Nat × ℚ × ℚ)) (st : Estado) : Estado :=
  ps.foldl (fun s p => atualizar_feedback_leds p.2.1 p.2.2 p.1 s) st

/-- Polls of the main loop at the fixed cadence of `sleep_ms(200)`: poll `k`
(`k = 0, …, n - 1`) is taken at `t0 + 200000 * k` with the reading `leitura k`. -/
def sondagens_200ms (t0 : Nat) (leitura : Nat → ℚ × ℚ) (n : Nat) (st : Estado) : Estado :=
  sondagens ((List.range n).map (fun k => (t0 + 200000 * k, leitura k))) st

/-! ## Buttons -/

/-- Source function `irq_botoes(gpio, eventos)`. -/
def irq_botoes (gpio eventos : Nat) (agora : Nat) (st : Estado) : Estado :=
  if sub64 agora st.debounce_antes < 200000 then st
  else
    let st := { st with debounce_antes := agora }
    if !st.alarme_ativo then
      if gpio = BOTAO_MODO then
        { st with exibir_temp := !st.exibir_temp, exibir_umidade := false }
      else if gpio = BOTAO_MODO then
        { st with exibir_umidade := !st.exibir_umidade, exibir_temp := false }
      else st
    else acionar_alarme st

/-- Source function `botao_modo_callback(gpio, eventos)`. -/
def botao_modo_callback (gpio eventos : Nat) (agora : Nat) (st : Estado) : Estado :=
  if sub64 agora st.ultima_troca_modo > 300000 then
    let st :=
      if st.alarme_ativo then acionar_alarme st
      else
        let st := { st with modo_manual := !st.modo_manual }
        printf ("Modo " ++ (if st.modo_manual then "MANUAL" else "AUTOMÁTICO") ++ " ativado\n") st
    { st with ultima_troca_modo := agora }
  else st

/-! ## LED matrix -/

/-- Glyph of the plant in its pot, 5 x 5. -/
def planta_matriz : List Nat :=
  [2, 2, 2, 2, 2,
   0, 0, 1, 0, 0,
   0, 0, 1, 1, 0,
   1, 1, 1, 1, 0,
   1, 1, 1, 0, 0]

/-- Conversion of a `double` to `unsigned char`. -/
def to_uchar (x : ℚ) : Nat := (Int.toNat ⌊x⌋) % 256

/-- Source function `matrix_rgb(b, r, g)`; the result is a `uint32_t`. -/
def matrix_rgb (b r g : ℚ) : Nat :=
  let R := to_uchar (r * 255)
  let G := to_uchar (g * 255)
  let B := to_uchar (b * 255)
  ((G <<< 24) ||| (R <<< 16) ||| (B <<< 8)) % 2 ^ 32

/-- Words pushed to the PIO state machine by `pio_sm_put_blocking`, and the
global `valor_led`. -/
structure Matriz where
  valor_led : Nat
  fifo : List Nat

/-- Source function `animacao_matriz_leds(temperatura)`. -/
def animacao_matriz_leds (temperatura : ℚ) (m : Matriz) : Matriz :=
  let rgb : ℚ × ℚ × ℚ :=
    if temperatura > 50 then (1, 0, 0)
    else if temperatura < 10 then (0, 0, 1)
    else (0, 1, 0)
  let r := rgb.1
  let g := rgb.2.1
  let b := rgb.2.2
  (List.range NUM_LEDS).foldl (fun m i =>
    let valor_led :=
      if planta_matriz.getD i 0 = 1 then matrix_rgb b r g
      else if planta_matriz.getD i 0 = 2 then matrix_rgb 0 1 1
      else matrix_rgb 0 0 0
    { valor_led := valor_led, fifo := m.fifo ++ [valor_led] }) m

/-! ## HTTP -/

/-- Format string of the status page, up to the first `%s` (the mode). -/
def pagina_parte1 : List Char :=
  ("HTTP/1.1 200 OK\r\nContent-Type: text/html\r\nConnection: close\r\n\r\n" ++
   "<!DOCTYPE html><html><head><meta charset='UTF-8'><meta http-equiv='refresh' content='5'>" ++
   "<title>Green Life</title><style>body\x7bbackground:#e6ffe6;font-family:Arial;text-align:center;padding:20px;\x7d" ++
   "h1\x7bfont-size:48px;color:#228B22;\x7d.sensor\x7bfont-size:28px;margin-top:20px;\x7d" ++
   ".status\x7bfont-size:32px;color:#333;margin-top:30px;font-weight:bold;\x7d" ++
   "img\x7bwidth:200px;margin-top:20px;border-radius:10px;\x7d</style>" ++
   "<script>setTimeout(function()\x7b location.reload(); \x7d, 5000);</script>" ++
   "</head><body>" ++
   "<h1>Green Life</h1><p class='sensor'><strong>Modo de monitoramento:</strong> ").toList

/-- Format string of the status page, from the mode to the first `%.1f` (the
temperature). -/
def pagina_parte2 : List Char :=
  ("</p>" ++
   "<img src='https://cdn-icons-png.flaticon.com/512/628/628324.png' alt='Planta'>" ++
   "<p class='sensor'>Temperatura atual: ").toList

/-- Format string of the status page, from the temperature to the second
`%.1f` (the humidity). -/
def pagina_parte3 : List Char :=
  " &deg;C</p><p class='sensor'>Umidade atual: ".toList

/-- Format string of the status page, from the humidity (`%%` prints `%`) to
the second `%s` (the status message). -/
def pagina_parte4 : List Char :=
  ("%</p>" ++
   "<p class='status'>").toList

/-- Format string of the status page, after the status message. -/
def pagina_parte5 : List Char :=
  ("</p>" ++
   "<form method='GET' action='/toggle_modo'>" ++
   "<button type='submit' style='font-size:22px;margin-top:25px;padding:10px 30px;'>Alternar modo</button>" ++
   "</form>" ++
   "</body></html>").toList

/-- Expansion of the format string of the status page for the four arguments of
`snprintf`. -/
def pagina_html (modo_str temperatura_str umidade_str status_msg : List Char) : List Char :=
  pagina_parte1 ++ modo_str ++ pagina_parte2 ++ temperatura_str ++ pagina_parte3 ++
    umidade_str ++ pagina_parte4 ++ status_msg ++ pagina_parte5

/-- The seven messages of `interpretar_estado_planta`. -/
def mensagens_html : List (List Char) :=
  ["Alarme ligado, aperte o botao A na placa para desativar".toList,
   "Sua planta est&aacute; feliz!".toList,
   "Sua planta est&aacute; em perigo!".toList,
   "Sua planta est&aacute; com frio!".toList,
   "Sua planta est&aacute; com calor!".toList,
   "Sua planta est&aacute; com sede!".toList,
   "Excesso de &aacute;gua detectado!".toList]

/-- The redirect sent after a mode toggle. -/
def redirect : List Char :=
  ("HTTP/1.1 303 See Other\r\n" ++
   "Location: /\r\n" ++
   "Connection: close\r\n\r\n").toList

/-- Source function `receber_dados_tcp`.  `p` is the payload of the received
`pbuf` (`none` for a null `pbuf`: the peer closed the connection); the three
sensor readers are given by the value each returns at this call, and `fmt1`
renders a number as `%.1f` does.  The second component is what `tcp_write`
sends (`strlen` bytes of the text), `none` when nothing is written; the C
function returns `ERR_OK` on every path.  The local buffer `status_msg[64]` is
not initialised in the source; it starts here as 64 NUL bytes, and
`cstr_interpretar_estado_planta` shows that its prior content does not matter. -/
def receber_dados_tcp (fmt1 : ℚ → List Char)
    (ler_temperatura_joystick ler_temperatura_interna ler_umidade_joystick : ℚ)
    (p : Option (List Char)) (st : Estado) : Estado × Option (List Char) :=
  match p with
  | none => (st, none)
  | some payload =>
    let request := payload ++ [NUL]
    if strncmp request ("GET /toggle_modo".toList ++ [NUL]) 16 = 0 then
      let st := { st with modo_manual := !st.modo_manual }
      (st, some (cstr redirect))
    else
      let temperatura :=
        if st.modo_manual then ler_temperatura_joystick else ler_temperatura_interna
      let umidade := ler_umidade_joystick
      let status_msg := interpretar_estado_planta temperatura umidade
        (List.replicate 64 NUL) 64 st
      let modo_str := if st.modo_manual then "Manual".toList else "Autom&aacute;tico".toList
      let html := (pagina_html modo_str (fmt1 temperatura) (fmt1 umidade)
        (cstr status_msg)).take 2047
      (st, some (cstr html))

/-! ## Main loop and handlers -/

/-- Position of `main` inside its endless loop: `topo` is the head of the loop
body, where the sensors are read and the poll is made; `buzzer i` is the test
of `while (alarme_ativo)`, with the tone index `i`. -/
inductive PC where
  | topo
  | buzzer (i : Nat)
  deriving DecidableEq

/-- Configuration of the running firmware: the position of `main`, the globals
and the LED matrix. -/
structure Config where
  pc : PC
  st : Estado
  matriz : Matriz

/-- Configuration when `main` enters its loop. -/
def config_inicial : Config :=
  { pc := PC.topo, st := estado_inicial, matriz := { valor_led := 0, fifo := [] } }

/-- What can run next.  `iteracao` is one pass of the loop body of `main` up to
`sleep_ms(200)`, with the values the three sensor readers and the clock return;
`laco_buzzer` is one evaluation of `while (alarme_ativo)` with what follows it;
`botao` is the GPIO interrupt registered in `main` (`botao_modo_callback`);
`relatorio_periodico` is the repeating timer (`alarme_periodico_callback`);
`tcp` is a receive callback (`receber_dados_tcp`).  `irq_botoes` is registered
nowhere in the source and is no event. -/
inductive Evento where
  | iteracao (tj ti u : ℚ) (agora : Nat)
  | laco_buzzer
  | botao (gpio eventos agora : Nat)
  | relatorio_periodico (fmt2 : ℚ → String) (tj ti u : ℚ)
  | tcp (fmt1 : ℚ → List Char) (tj ti u : ℚ) (p : Option (List Char))

/-- The two tones of the buzzer, local to `main`. -/
def frequencias : List Nat := [1000, 1500]

/-- Whether an event can run in a configuration: the two pieces of `main` run at
their own position, the interrupt and the callbacks at any time. -/
def habilitado : Evento → Config → Bool
  | Evento.iteracao _ _ _ _, c => decide (c.pc = PC.topo)
  | Evento.laco_buzzer, c => decide (c.pc ≠ PC.topo)
  | Evento.botao _ _ _, _ => true
  | Evento.relatorio_periodico _ _ _ _, _ => true
  | Evento.tcp _ _ _ _ _, _ => true

/-- Configuration after an event.  The handlers run between two pieces of
`main`: one that arrives inside a piece is taken right after it (the handlers
write no PWM level of the RGB LED and can only clear the alarm flag, never set
it).  The display, the network stack, and the clock divider and wrap of the
buzzer slice are not part of the configuration. -/
def efeito : Evento → Config → Config
  | Evento.iteracao tj ti u agora, c =>
    let temperatura := if c.st.modo_manual then tj else ti
    let umidade := u
    { pc := PC.buzzer 0
      st := atualizar_feedback_leds temperatura umidade agora c.st
      matriz := animacao_matriz_leds temperatura c.matriz }
  | Evento.laco_buzzer, c =>
    match c.pc with
    | PC.topo => c
    | PC.buzzer i =>
      if c.st.alarme_ativo then
        { c with
          pc := PC.buzzer (if i = 0 then 1 else 0)
          st := pwm_set_gpio_level BUZZER (125000 / frequencias.getD i 0 / 2) c.st }
      else
        { c with pc := PC.topo, st := pwm_set_gpio_level BUZZER 0 c.st }
  | Evento.botao gpio eventos agora, c =>
    { c with st := botao_modo_callback gpio eventos agora c.st }
  | Evento.relatorio_periodico fmt2 tj ti u, c =>
    { c with st := alarme_periodico_callback fmt2 tj ti u c.st }
  | Evento.tcp fmt1 tj ti u p, c =>
    { c with st := (receber_dados_tcp fmt1 tj ti u p c.st).1 }

/-- Configurations the firmware reaches from the entry of the loop. -/
inductive Alcancavel : Config → Prop where
  | inicio : Alcancavel config_inicial
  | passo (c : Config) (e : Evento) :
      Alcancavel c → habilitado e c = true → Alcancavel (efeito e c)

/-- What holds in every configuration the firmware reaches: at the head of the
loop body the alarm is inactive, and an active alarm has the RGB LED on pure
red. -/
def Inv (c : Config) : Prop :=
  (c.pc = PC.topo → c.st.alarme_ativo = false) ∧
  (c.st.alarme_ativo = true →
    c.st.pwm LED_VERMELHO = 4095 ∧ c.st.pwm LED_VERDE = 0 ∧ c.st.pwm LED_AZUL = 0)

/-- Example of a reached configuration with the alarm active: two polls with
the critical reading `T = 45`, `H = 90`, at 1.0 s and at 7.0 s. -/
def config_alarme : Config :=
  efeito (Evento.iteracao 0 45 90 7000000)
    (efeito Evento.laco_buzzer
      (efeito (Evento.iteracao 0 45 90 1000000) config_inicial))

/-! ## C strings: lemmas -/

theorem cstr_strncpy (dst src : List Char) (n : Nat) (h1 : NUL ∉ src) (h2 : src.length < n) :
    cstr ((strncpy dst src n).set (n - 1) NUL) = src := by
  unfold strncpy cstr
  rw [List.take_of_length_le (le_of_lt h2)]
  obtain ⟨k, rfl⟩ : ∃ k, n = src.length + (k + 1) := ⟨n - src.length - 1, by omega⟩
  have e1 : src.length + (k + 1) - src.length = k + 1 := by omega
  have e2 : src.length + (k + 1) - 1 = src.length + k := by omega
  rw [e1, e2, List.append_assoc, List.set_append]
  simp only [Nat.not_lt.mpr (Nat.le_add_right _ _), if_false, Nat.add_sub_cancel_left]
  rw [List.replicate_succ, List.cons_append]
  have : ∀ tl : List Char, ∃ tl2, (NUL :: tl).set k NUL = NUL :: tl2 := by
    intro tl; cases k <;> simp
  obtain ⟨tl2, h⟩ := this (List.replicate k NUL ++ List.drop (src.length + (k + 1)) dst)
  rw [h, List.takeWhile_append_of_pos]
  · simp
  · intro c hc
    have : c ≠ NUL := fun e => h1 (e ▸ hc)
    simpa using this

/-! ## Timestamps and polls: lemmas -/

theorem sub64_of_le (a b : Nat) (hb : b ≤ a) (ha : a < 2 ^ 64) : sub64 a b = a - b := by
  unfold sub64
  omega

theorem sub64_self (a : Nat) : sub64 a a = 0 := by
  unfold sub64
  omega

theorem sub64_lt (a b : Nat) : sub64 a b < 2 ^ 64 := by
  unfold sub64
  omega

@[simp] theorem pwm_set_gpio_level_alarme_ativo (g l : Nat) (st : Estado) :
    (pwm_set_gpio_level g l st).alarme_ativo = st.alarme_ativo := rfl

@[simp] theorem pwm_set_gpio_level_tempo_inicio_alerta (g l : Nat) (st : Estado) :
    (pwm_set_gpio_level g l st).tempo_inicio_alerta = st.tempo_inicio_alerta := rfl

@[simp] theorem pwm_set_gpio_level_modo_manual (g l : Nat) (st : Estado) :
    (pwm_set_gpio_level g l st).modo_manual = st.modo_manual := rfl

@[simp] theorem pwm_set_gpio_level_ultima_troca_modo (g l : Nat) (st : Estado) :
    (pwm_set_gpio_level g l st).ultima_troca_modo = st.ultima_troca_modo := rfl

@[simp] theorem pwm_set_gpio_level_pwm (g l : Nat) (st : Estado) (x : Nat) :
    (pwm_set_gpio_level g l st).pwm x = if x = g then l else st.pwm x := rfl

@[simp] theorem printf_alarme_ativo (s : String) (st : Estado) :
    (printf s st).alarme_ativo = st.alarme_ativo := rfl

@[simp] theorem printf_tempo_inicio_alerta (s : String) (st : Estado) :
    (printf s st).tempo_inicio_alerta = st.tempo_inicio_alerta := rfl

@[simp] theorem printf_modo_manual (s : String) (st : Estado) :
    (printf s st).modo_manual = st.modo_manual := rfl

@[simp] theorem printf_ultima_troca_modo (s : String) (st : Estado) :
    (printf s st).ultima_troca_modo = st.ultima_troca_modo := rfl

@[simp] theorem printf_pwm (s : String) (st : Estado) : (printf s st).pwm = st.pwm := rfl

@[simp] theorem acionar_alarme_alarme_ativo (st : Estado) :
    (acionar_alarme st).alarme_ativo = !st.alarme_ativo := by
  unfold acionar_alarme
  cases h : st.alarme_ativo <;> simp [h]

@[simp] theorem acionar_alarme_tempo_inicio_alerta (st : Estado) :
    (acionar_alarme st).tempo_inicio_alerta = st.tempo_inicio_alerta := by
  unfold acionar_alarme
  cases h : st.alarme_ativo <;> simp [h]

@[simp] theorem acionar_alarme_modo_manual (st : Estado) :
    (acionar_alarme st).modo_manual = st.modo_manual := by
  unfold acionar_alarme
  cases h : st.alarme_ativo <;> simp [h]

@[simp] theorem acionar_alarme_ultima_troca_modo (st : Estado) :
    (acionar_alarme st).ultima_troca_modo = st.ultima_troca_modo := by
  unfold acionar_alarme
  cases h : st.alarme_ativo <;> simp [h]

/-- The test `cond_critica` of `atualizar_feedback_visual`. -/
theorem cond_critica_iff (T H : ℚ) :
    ((decide (T < 20) || decide (T > 40)) && (decide (H < 20) || decide (H > 80))) = true
      ↔ ¬ (20 ≤ T ∧ T ≤ 40) ∧ ¬ (20 ≤ H ∧ H ≤ 80) := by
  simp only [not_and_or, not_le, Bool.and_eq_true, Bool.or_eq_true, decide_eq_true_eq, gt_iff_lt]

/-- Alarm flag and timer start after one poll with a critical reading. -/
theorem atualizar_feedback_visual_critica (T H : ℚ) (agora : Nat) (st : Estado)
    (hT : ¬ (20 ≤ T ∧ T ≤ 40)) (hH : ¬ (20 ≤ H ∧ H ≤ 80)) :
    (atualizar_feedback_visual T H agora st).tempo_inicio_alerta
      = (if st.tempo_inicio_alerta = 0 then agora else st.tempo_inicio_alerta) ∧
    (atualizar_feedback_visual T H agora st).alarme_ativo
      = (if sub64 agora (if st.tempo_inicio_alerta = 0 then agora else st.tempo_inicio_alerta)
            > 5000000 then !st.alarme_ativo else st.alarme_ativo) := by
  have hc := (cond_critica_iff T H).mpr ⟨hT, hH⟩
  unfold atualizar_feedback_visual
  simp only [hc, if_true]
  by_cases h0 : st.tempo_inicio_alerta = 0
  · simp only [h0, if_true]
    by_cases h5 : sub64 agora agora > 5000000
    · simp [h5]
    · simp [h5]
  · simp only [h0, if_false]
    by_cases h5 : sub64 agora st.tempo_inicio_alerta > 5000000
    · simp [h5]
    · simp [h5]

/-- Alarm flag and timer start after one poll with a reading that is not critical. -/
theorem atualizar_feedback_visual_nao_critica (T H : ℚ) (agora : Nat) (st : Estado)
    (h : (20 ≤ T ∧ T ≤ 40) ∨ (20 ≤ H ∧ H ≤ 80)) :
    (atualizar_feedback_visual T H agora st).alarme_ativo = st.alarme_ativo ∧
    (atualizar_feedback_visual T H agora st).tempo_inicio_alerta = 0 := by
  have hc : ((decide (T < 20) || decide (T > 40)) && (decide (H < 20) || decide (H > 80)))
      = false := by
    rw [Bool.eq_false_iff]
    intro hc
    have := (cond_critica_iff T H).mp hc
    tauto
  unfold atualizar_feedback_visual
  simp only [hc, Bool.false_eq_true, if_false]
  split_ifs <;> simp

theorem sondagens_200ms_succ (t0 : Nat) (leitura : Nat → ℚ × ℚ) (n : Nat) (st : Estado) :
    sondagens_200ms t0 leitura (n + 1) st
      = atualizar_feedback_visual (leitura n).1 (leitura n).2 (t0 + 200000 * n)
          (sondagens_200ms t0 leitura n st) := by
  simp [sondagens_200ms, sondagens, List.range_succ, atualizar_feedback_leds]


/-- While less than 5 s have elapsed since the recorded start (or none is
recorded), a run of critical polls leaves the alarm inactive. -/
theorem sondagens_sem_disparo (ps : List (Nat × ℚ × ℚ)) :
    ∀ st : Estado, st.alarme_ativo = false →
    (∀ p ∈ ps, p.1 < 2 ^ 64 ∧ ¬ (20 ≤ p.2.1 ∧ p.2.1 ≤ 40) ∧ ¬ (20 ≤ p.2.2 ∧ p.2.2 ≤ 80)) →
    ps.Pairwise (fun p q => p.1 ≤ q.1 ∧ q.1 < p.1 + 5000000) →
    (st.tempo_inicio_alerta = 0 ∨
      ∀ p ∈ ps, st.tempo_inicio_alerta ≤ p.1 ∧ p.1 < st.tempo_inicio_alerta + 5000000) →
    (sondagens ps st).alarme_ativo = false := by
  induction ps with
  | nil => intro st h _ _ _; simpa [sondagens] using h
  | cons p ps ih =>
    intro st ha hp hpw hinv
    have hp0 := hp p (List.mem_cons_self _ _)
    obtain ⟨ht, hal⟩ := atualizar_feedback_visual_critica p.2.1 p.2.2 p.1 st hp0.2.1 hp0.2.2
    rw [List.pairwise_cons] at hpw
    have hstep : sondagens (p :: ps) st
        = sondagens ps (atualizar_feedback_visual p.2.1 p.2.2 p.1 st) := by
      simp [sondagens, atualizar_feedback_leds]
    rw [hstep]
    have hsmall : ¬ sub64 p.1 (if st.tempo_inicio_alerta = 0 then p.1
        else st.tempo_inicio_alerta) > 5000000 := by
      by_cases h0 : st.tempo_inicio_alerta = 0
      · simp only [h0, if_true]
        rw [sub64_of_le _ _ (le_refl _) hp0.1]
        omega
      · simp only [h0, if_false]
        rcases hinv with h | h
        · exact absurd h h0
        · have := h p (List.mem_cons_self _ _)
          rw [sub64_of_le _ _ this.1 hp0.1]
          omega
    apply ih
    · rw [hal, if_neg hsmall, ha]
    · intro q hq
      exact hp q (List.mem_cons_of_mem _ hq)
    · exact hpw.2
    · rw [ht]
      by_cases h0 : st.tempo_inicio_alerta = 0
      · simp only [h0, if_true]
        right
        intro q hq
        exact hpw.1 q hq
      · simp only [h0, if_false]
        rcases hinv with h | h
        · exact absurd h h0
        · right
          intro q hq
          exact h q (List.mem_cons_of_mem _ hq)

/-- State of the latch during the first 26 polls of a critical run that starts
at `t0` in the idle state. -/
theorem sondagens_200ms_inv (st : Estado) (t0 : Nat) (leitura : Nat → ℚ × ℚ)
    (h_inativo : st.alarme_ativo = false) (h_idle : st.tempo_inicio_alerta = 0)
    (ht0 : 0 < t0) (hmax : t0 + 5200000 < 2 ^ 64)
    (hcrit : ∀ k, ¬ (20 ≤ (leitura k).1 ∧ (leitura k).1 ≤ 40) ∧
      ¬ (20 ≤ (leitura k).2 ∧ (leitura k).2 ≤ 80)) :
    ∀ n, n ≤ 26 → (sondagens_200ms t0 leitura n st).alarme_ativo = false ∧
      (sondagens_200ms t0 leitura n st).tempo_inicio_alerta = if n = 0 then 0 else t0 := by
  intro n
  induction n with
  | zero => intro _; simp [sondagens_200ms, sondagens, h_inativo, h_idle]
  | succ n ih =>
    intro hn
    obtain ⟨ha, ht⟩ := ih (by omega)
    obtain ⟨ht', ha'⟩ := atualizar_feedback_visual_critica (leitura n).1 (leitura n).2
      (t0 + 200000 * n) (sondagens_200ms t0 leitura n st) (hcrit n).1 (hcrit n).2
    rw [sondagens_200ms_succ, ht', ha', ht, ha]
    by_cases h0 : n = 0
    · subst h0
      simp only [if_true, Nat.mul_zero, Nat.add_zero]
      rw [sub64_of_le _ _ (le_refl _) (by omega)]
      simp
    · simp only [h0, if_false, Nat.ne_of_gt ht0, Nat.succ_ne_zero]
      rw [sub64_of_le _ _ (by omega) (by omega)]
      have : ¬ (t0 + 200000 * n - t0 > 5000000) := by omega
      rw [if_neg this]
      simp

/-- PWM levels of the RGB LED after one poll: they follow the reading alone, and
a poll that activates the alarm leaves pure red. -/
theorem atualizar_feedback_visual_niveis (T H : ℚ) (agora : Nat) (st : Estado) :
    let s := atualizar_feedback_visual T H agora st
    let rgb := (s.pwm LED_VERMELHO, s.pwm LED_VERDE, s.pwm LED_AZUL)
    ((20 ≤ T ∧ T ≤ 40) ∧ (20 ≤ H ∧ H ≤ 80) → rgb = (0, 4095, 0)) ∧
    ((¬ (20 ≤ T ∧ T ≤ 40) ∧ (20 ≤ H ∧ H ≤ 80)) ∨ ((20 ≤ T ∧ T ≤ 40) ∧ ¬ (20 ≤ H ∧ H ≤ 80)) →
      rgb = (4095, 4095, 0)) ∧
    (¬ (20 ≤ T ∧ T ≤ 40) ∧ ¬ (20 ≤ H ∧ H ≤ 80) → rgb = (4095, 0, 0)) ∧
    (st.alarme_ativo = false → s.alarme_ativo = true → rgb = (4095, 0, 0)) ∧
    s.pwm LED_AZUL = 0 := by
  intro s rgb
  have hT : (decide (T < 20) || decide (T > 40)) = true ↔ ¬ (20 ≤ T ∧ T ≤ 40) := by
    simp only [not_and_or, not_le, Bool.or_eq_true, decide_eq_true_eq, gt_iff_lt]
  have hH : (decide (H < 20) || decide (H > 80)) = true ↔ ¬ (20 ≤ H ∧ H ≤ 80) := by
    simp only [not_and_or, not_le, Bool.or_eq_true, decide_eq_true_eq, gt_iff_lt]
  have hal : s.alarme_ativo = true → st.alarme_ativo = false →
      ¬ (20 ≤ T ∧ T ≤ 40) ∧ ¬ (20 ≤ H ∧ H ≤ 80) := by
    intro h1 h2
    by_contra hn
    have := (atualizar_feedback_visual_nao_critica T H agora st (by tauto)).1
    simp only [s] at h1
    rw [this, h2] at h1
    exact Bool.false_ne_true h1
  simp only [rgb, s, atualizar_feedback_visual] at hal ⊢
  generalize (decide (T < 20) || decide (T > 40)) = tc at hT hal ⊢
  generalize (decide (H < 20) || decide (H > 80)) = uc at hH hal ⊢
  cases tc <;> cases uc <;>
    simp [LED_VERMELHO, LED_VERDE, LED_AZUL, ← hT, ← hH]


/-! ## Main loop: invariants -/

theorem botao_modo_callback_alarme (gpio eventos agora : Nat) (st : Estado) :
    (botao_modo_callback gpio eventos agora st).alarme_ativo
      = (st.alarme_ativo && !decide (sub64 agora st.ultima_troca_modo > 300000)) ∧
    ((botao_modo_callback gpio eventos agora st).alarme_ativo = true →
      (botao_modo_callback gpio eventos agora st).pwm = st.pwm) := by
  unfold botao_modo_callback
  by_cases h : sub64 agora st.ultima_troca_modo > 300000
  · cases ha : st.alarme_ativo <;> simp [h, ha]
  · simp [h]

theorem alarme_periodico_callback_alarme (fmt2 : ℚ → String) (tj ti u : ℚ) (st : Estado) :
    (alarme_periodico_callback fmt2 tj ti u st).alarme_ativo = st.alarme_ativo ∧
    (alarme_periodico_callback fmt2 tj ti u st).pwm = st.pwm := by
  unfold alarme_periodico_callback
  simp only []
  split_ifs <;> exact ⟨rfl, rfl⟩

theorem receber_dados_tcp_alarme (fmt1 : ℚ → List Char) (tj ti u : ℚ)
    (p : Option (List Char)) (st : Estado) :
    (receber_dados_tcp fmt1 tj ti u p st).1.alarme_ativo = st.alarme_ativo ∧
    (receber_dados_tcp fmt1 tj ti u p st).1.pwm = st.pwm := by
  unfold receber_dados_tcp
  cases p with
  | none => exact ⟨rfl, rfl⟩
  | some payload =>
    simp only []
    split_ifs <;> exact ⟨rfl, rfl⟩

theorem efeito_inv (e : Evento) (c : Config) (hinv : Inv c) (hab : habilitado e c = true) :
    Inv (efeito e c) := by
  obtain ⟨h1, h2⟩ := hinv
  cases e with
  | iteracao tj ti u agora =>
    have hp : c.pc = PC.topo := by simpa [habilitado] using hab
    refine ⟨fun h => by simp [efeito] at h, ?_⟩
    intro ha
    have := (atualizar_feedback_visual_niveis (if c.st.modo_manual then tj else ti) u agora
      c.st).2.2.2.1 (h1 hp) ha
    simpa [efeito, atualizar_feedback_leds] using this
  | laco_buzzer =>
    cases hc : c.pc with
    | topo => simp [habilitado, hc] at hab
    | buzzer i =>
      cases ha : c.st.alarme_ativo with
      | false => simp [Inv, efeito, hc, ha]
      | true =>
        have := h2 ha
        simp [Inv, efeito, hc, ha, LED_VERMELHO, LED_VERDE, LED_AZUL, BUZZER] at this ⊢
        exact this
  | botao gpio eventos agora =>
    obtain ⟨ha, hp⟩ := botao_modo_callback_alarme gpio eventos agora c.st
    refine ⟨?_, ?_⟩
    · intro hpc
      have hpc' : c.pc = PC.topo := by simpa [efeito] using hpc
      simp only [efeito]
      rw [ha, h1 hpc']
      rfl
    · intro hact
      simp only [efeito] at hact ⊢
      rw [hp hact]
      apply h2
      rw [ha] at hact
      cases hb : c.st.alarme_ativo
      · rw [hb] at hact; simp at hact
      · rfl
  | relatorio_periodico fmt2 tj ti u =>
    obtain ⟨ha, hp⟩ := alarme_periodico_callback_alarme fmt2 tj ti u c.st
    simp only [Inv, efeito, ha, hp]
    exact ⟨h1, h2⟩
  | tcp fmt1 tj ti u p =>
    obtain ⟨ha, hp⟩ := receber_dados_tcp_alarme fmt1 tj ti u p c.st
    simp only [Inv, efeito, ha, hp]
    exact ⟨h1, h2⟩

theorem alcancavel_inv (c : Config) (h : Alcancavel c) : Inv c := by
  induction h with
  | inicio => exact ⟨fun _ => rfl, fun h => absurd h (by decide)⟩
  | passo c e _ hab ih => exact efeito_inv e c ih hab

theorem config_alarme_alcancavel : Alcancavel config_alarme :=
  Alcancavel.passo _ _
    (Alcancavel.passo _ _
      (Alcancavel.passo _ _ Alcancavel.inicio (by decide)) (by decide)) (by decide)

/-! ## HTTP routing: lemmas -/

theorem char_toNat_inj (c d : Char) (h : c.toNat = d.toNat) : c = d :=
  Char.ext (UInt32.ext h)

/-- On a NUL-terminated request, `strncmp` against a pattern free of NUL over
the length of the pattern is 0 exactly when the request begins with the
pattern. -/
theorem strncmp_eq_zero_iff (pat : List Char) (hpat : NUL ∉ pat) :
    ∀ s : List Char, strncmp (s ++ [NUL]) (pat ++ [NUL]) pat.length = 0 ↔ pat <+: s := by
  induction pat with
  | nil => intro s; simp [strncmp]
  | cons c pat ih =>
    intro s
    have hc : c ≠ NUL := fun e => hpat (e ▸ List.mem_cons_self _ _)
    have hpat2 : NUL ∉ pat := fun h => hpat (List.mem_cons_of_mem _ h)
    cases s with
    | nil =>
      have : (NUL.toNat : Int) - (c.toNat : Int) ≠ 0 := by
        intro h
        have h2 : NUL.toNat = c.toNat := by omega
        exact hc (char_toNat_inj _ _ h2).symm
      simp [strncmp, Ne.symm hc, this]
    | cons d s =>
      by_cases hdc : d = c
      · subst hdc
        simp [strncmp, hc, ih hpat2 s, List.cons_prefix_cons]
      · have : (d.toNat : Int) - (c.toNat : Int) ≠ 0 := by
          intro h
          have h2 : d.toNat = c.toNat := by omega
          exact hdc (char_toNat_inj _ _ h2)
        simp [strncmp, hdc, this, List.cons_prefix_cons, Ne.symm hdc]

/-- The test of `receber_dados_tcp` for the toggle route. -/
theorem strncmp_toggle_modo (payload : List Char) :
    strncmp (payload ++ [NUL]) ("GET /toggle_modo".toList ++ [NUL]) 16 = 0
      ↔ "GET /toggle_modo".toList <+: payload :=
  strncmp_eq_zero_iff "GET /toggle_modo".toList (by decide) payload


/-- The message `interpretar_estado_planta` leaves in a 64-byte buffer is one of
the seven and does not depend on the prior content of the buffer. -/
theorem cstr_interpretar_estado_planta (T H : ℚ) (st : Estado) :
    ∃ m ∈ mensagens_html, ∀ msg, cstr (interpretar_estado_planta T H msg 64 st) = m := by
  unfold interpretar_estado_planta
  generalize (decide (T ≥ 20) && decide (T ≤ 40)) = temp_ok
  generalize (decide (H ≥ 20) && decide (H ≤ 80)) = umid_ok
  cases st.alarme_ativo <;> cases temp_ok <;> cases umid_ok <;>
    simp only [Bool.and_self, Bool.and_true, Bool.and_false, Bool.not_true, Bool.not_false,
      if_true, if_false, Bool.false_eq_true] <;>
    (try split_ifs) <;>
    exact ⟨_, by simp [mensagens_html], fun msg => cstr_strncpy _ _ _ (by decide) (by decide)⟩

theorem mensagens_html_limites : ∀ m ∈ mensagens_html, NUL ∉ m ∧ m.length ≤ 55 := by
  decide


/-- What `strlen` sees of a buffer that holds no NUL before the end of the text. -/
theorem cstr_eq_self (l : List Char) (h : NUL ∉ l) : cstr l = l := by
  unfold cstr
  rw [List.takeWhile_eq_self_iff]
  intro c hc
  have : c ≠ NUL := fun e => h (e ▸ hc)
  simpa using this

/-- The status page fits the 2048-byte buffer of `snprintf` and is sent whole. -/
theorem pagina_html_inteira (modo_str ts us status : List Char)
    (h1 : NUL ∉ modo_str ∧ modo_str.length ≤ 17) (h2 : NUL ∉ ts ∧ ts.length ≤ 64)
    (h3 : NUL ∉ us ∧ us.length ≤ 64) (h4 : NUL ∉ status ∧ status.length ≤ 55) :
    cstr ((pagina_html modo_str ts us status).take 2047) = pagina_html modo_str ts us status := by
  have hl : (pagina_html modo_str ts us status).length ≤ 2047 := by
    have e1 : pagina_parte1.length = 616 := by decide
    have e2 : pagina_parte2.length = 119 := by decide
    have e3 : pagina_parte3.length = 44 := by decide
    have e4 : pagina_parte4.length = 23 := by decide
    have e5 : pagina_parte5.length = 168 := by decide
    simp only [pagina_html, List.length_append, e1, e2, e3, e4, e5]
    omega
  rw [List.take_of_length_le hl]
  apply cstr_eq_self
  have n1 : NUL ∉ pagina_parte1 := by decide
  have n2 : NUL ∉ pagina_parte2 := by decide
  have n3 : NUL ∉ pagina_parte3 := by decide
  have n4 : NUL ∉ pagina_parte4 := by decide
  have n5 : NUL ∉ pagina_parte5 := by decide
  simp only [pagina_html, List.mem_append, not_or]
  exact ⟨⟨⟨⟨⟨⟨⟨⟨n1, h1.1⟩, n2⟩, h2.1⟩, n3⟩, h3.1⟩, n4⟩, h4.1⟩, n5⟩

/-! ## C1: the classifier -/

/-- C1.  With `T` the reading of the selected temperature sensor, `H` the humidity
and a 64-byte buffer `msg` of any prior content, `interpretar_estado_planta`
leaves in `msg` one of seven fixed messages, whole: the alarm message when the
alarm is active, whatever `T` and `H`; otherwise, with the comfort bands
`20 ≤ T ≤ 40` and `20 ≤ H ≤ 80` (bounds included), "feliz" when both hold,
"em perigo" when neither holds, "com frio" / "com calor" when only the
temperature band fails with `T < 20` / `T > 40`, "com sede" / "Excesso de agua"
when only the humidity band fails with `H < 20` / `H > 80`.  The periodic report
`alarme_periodico_callback` prints, after its header line, the terminal message
of the same category in each of the seven cases. -/
theorem interpretar_estado_planta_categorias (fmt2 : ℚ → String) (tj ti T H : ℚ)
    (msg : List Char) (st : Estado)
    (hsel : (if st.modo_manual then tj else ti) = T) :
    let cab := "[Relatório] Temp: " ++ fmt2 T ++ " °C | Umid: " ++ fmt2 H ++ " %\n"
    let html := cstr (interpretar_estado_planta T H msg 64 st)
    let rel := (alarme_periodico_callback fmt2 tj ti H st).terminal
    (st.alarme_ativo = true →
      html = "Alarme ligado, aperte o botao A na placa para desativar".toList ∧
      rel = st.terminal ++
        [cab, "Alarme ligado, aperte o botao A na placa para desativar\n"]) ∧
    (st.alarme_ativo = false → (20 ≤ T ∧ T ≤ 40) → (20 ≤ H ∧ H ≤ 80) →
      html = "Sua planta est&aacute; feliz!".toList ∧
      rel = st.terminal ++ [cab, "Sua planta esta feliz!\n"]) ∧
    (st.alarme_ativo = false → ¬ (20 ≤ T ∧ T ≤ 40) → ¬ (20 ≤ H ∧ H ≤ 80) →
      html = "Sua planta est&aacute; em perigo!".toList ∧
      rel = st.terminal ++ [cab, "Sua planta esta em perigo!\n"]) ∧
    (st.alarme_ativo = false → ¬ (20 ≤ T ∧ T ≤ 40) → (20 ≤ H ∧ H ≤ 80) → T < 20 →
      html = "Sua planta est&aacute; com frio!".toList ∧
      rel = st.terminal ++ [cab, "Sua planta esta com frio!\n"]) ∧
    (st.alarme_ativo = false → ¬ (20 ≤ T ∧ T ≤ 40) → (20 ≤ H ∧ H ≤ 80) → T > 40 →
      html = "Sua planta est&aacute; com calor!".toList ∧
      rel = st.terminal ++ [cab, "Sua planta esta com calor!\n"]) ∧
    (st.alarme_ativo = false → (20 ≤ T ∧ T ≤ 40) → ¬ (20 ≤ H ∧ H ≤ 80) → H < 20 →
      html = "Sua planta est&aacute; com sede!".toList ∧
      rel = st.terminal ++ [cab, "Sua planta esta com sede!\n"]) ∧
    (st.alarme_ativo = false → (20 ≤ T ∧ T ≤ 40) → ¬ (20 ≤ H ∧ H ≤ 80) → H > 80 →
      html = "Excesso de &aacute;gua detectado!".toList ∧
      rel = st.terminal ++ [cab, "Excesso de agua detectado!\n"]) := by
  intro cab html rel
  have hrel : rel = (alarme_periodico_callback fmt2 T T H st).terminal := by
    simp only [rel, alarme_periodico_callback, hsel, ite_self]
  rw [hrel]
  simp only [html, cab, interpretar_estado_planta, alarme_periodico_callback, printf, ite_self]
  have bT : ∀ b : Bool, ((20 ≤ T ∧ T ≤ 40) ↔ b = true) →
      (decide (T ≥ 20) && decide (T ≤ 40)) = b := by
    intro b hb; cases b <;> simp_all
  have bH : ∀ b : Bool, ((20 ≤ H ∧ H ≤ 80) ↔ b = true) →
      (decide (H ≥ 20) && decide (H ≤ 80)) = b := by
    intro b hb; cases b <;> simp_all
  refine ⟨?_, ?_, ?_, ?_, ?_, ?_, ?_⟩
  · intro ha
    simp only [ha, if_true, and_true]
    exact ⟨cstr_strncpy _ _ _ (by decide) (by decide), by simp⟩
  · intro ha hT hH
    simp only [ha, bT true (by simp [hT]), bH true (by simp [hH]), Bool.and_self, if_true,
      Bool.false_eq_true, if_false, and_true]
    exact ⟨cstr_strncpy _ _ _ (by decide) (by decide), by simp⟩
  · intro ha hT hH
    simp only [ha, bT false (by simp [hT]), bH false (by simp [hH]), Bool.and_self, if_true,
      Bool.false_eq_true, if_false, and_true, Bool.not_false]
    exact ⟨cstr_strncpy _ _ _ (by decide) (by decide), by simp⟩
  · intro ha hT hH hlt
    simp only [ha, bT false (by simp [hT]), bH true (by simp [hH]), Bool.and_self, if_true,
      Bool.false_eq_true, if_false, and_true, Bool.not_false, Bool.not_true, Bool.and_true,
      Bool.and_false, Bool.false_and, Bool.true_and, hlt]
    exact ⟨cstr_strncpy _ _ _ (by decide) (by decide), by simp⟩
  · intro ha hT hH hgt
    have hlt : ¬ T < 20 := by intro h; linarith
    simp only [ha, bT false (by simp [hT]), bH true (by simp [hH]), Bool.and_self, if_true,
      Bool.false_eq_true, if_false, and_true, Bool.not_false, Bool.not_true, Bool.and_true,
      Bool.and_false, Bool.false_and, Bool.true_and, hlt]
    exact ⟨cstr_strncpy _ _ _ (by decide) (by decide), by simp⟩
  · intro ha hT hH hlt
    simp only [ha, bT true (by simp [hT]), bH false (by simp [hH]), Bool.and_self, if_true,
      Bool.false_eq_true, if_false, and_true, Bool.not_false, Bool.not_true, Bool.and_true,
      Bool.and_false, Bool.false_and, Bool.true_and, hlt]
    exact ⟨cstr_strncpy _ _ _ (by decide) (by decide), by simp⟩
  · intro ha hT hH hgt
    have hlt : ¬ H < 20 := by intro h; linarith
    simp only [ha, bT true (by simp [hT]), bH false (by simp [hH]), Bool.and_self, if_true,
      Bool.false_eq_true, if_false, and_true, Bool.not_false, Bool.not_true, Bool.and_true,
      Bool.and_false, Bool.false_and, Bool.true_and, hlt]
    exact ⟨cstr_strncpy _ _ _ (by decide) (by decide), by simp⟩

/-- Witness of C1: one reading for each of the seven categories. -/
theorem interpretar_estado_planta_categorias_witness :
    (cstr (interpretar_estado_planta 45 90 (List.replicate 64 'x') 64
        { estado_inicial with alarme_ativo := true })
      = "Alarme ligado, aperte o botao A na placa para desativar".toList) ∧
    (cstr (interpretar_estado_planta 25 50 (List.replicate 64 'x') 64 estado_inicial)
      = "Sua planta est&aacute; feliz!".toList) ∧
    (cstr (interpretar_estado_planta 45 90 (List.replicate 64 'x') 64 estado_inicial)
      = "Sua planta est&aacute; em perigo!".toList) ∧
    (cstr (interpretar_estado_planta 5 50 (List.replicate 64 'x') 64 estado_inicial)
      = "Sua planta est&aacute; com frio!".toList) ∧
    (cstr (interpretar_estado_planta 45 50 (List.replicate 64 'x') 64 estado_inicial)
      = "Sua planta est&aacute; com calor!".toList) ∧
    (cstr (interpretar_estado_planta 25 10 (List.replicate 64 'x') 64 estado_inicial)
      = "Sua planta est&aacute; com sede!".toList) ∧
    ((alarme_periodico_callback (fun _ => "") 0 25 90 estado_inicial).terminal
      = [] ++ ["[Relatório] Temp: " ++ "" ++ " °C | Umid: " ++ "" ++ " %\n",
          "Excesso de agua detectado!\n"]) :=
  ⟨((interpretar_estado_planta_categorias (fun _ => "") 0 45 45 90 _
      { estado_inicial with alarme_ativo := true } rfl).1 rfl).1,
   ((interpretar_estado_planta_categorias (fun _ => "") 0 25 25 50 _ estado_inicial rfl).2.1
      rfl (by decide) (by decide)).1,
   ((interpretar_estado_planta_categorias (fun _ => "") 0 45 45 90 _ estado_inicial rfl).2.2.1
      rfl (by decide) (by decide)).1,
   ((interpretar_estado_planta_categorias (fun _ => "") 0 5 5 50 _ estado_inicial rfl).2.2.2.1
      rfl (by decide) (by decide) (by decide)).1,
   ((interpretar_estado_planta_categorias (fun _ => "") 0 45 45 50 _ estado_inicial rfl).2.2.2.2.1
      rfl (by decide) (by decide) (by decide)).1,
   ((interpretar_estado_planta_categorias (fun _ => "") 0 25 25 10 _ estado_inicial
      rfl).2.2.2.2.2.1 rfl (by decide) (by decide) (by decide)).1,
   ((interpretar_estado_planta_categorias (fun _ => "") 0 25 25 90 (List.replicate 64 'x')
      estado_inicial rfl).2.2.2.2.2.2 rfl (by decide) (by decide) (by decide)).2⟩

/-! ## C2: the alarm trips after more than 5 s -/

/-- C2 (amended).  From the idle latch state (alarm inactive, no start time
recorded), with polls at `t0`, `t0 + 200 ms`, `t0 + 400 ms`, … (`t0 > 0`) whose
readings are all critical, the alarm is inactive after each of the first 26
polls, the last of which is taken at `t0 + 5.0 s`, and it is active after the
27th poll, taken at `t0 + 5.2 s`: the first poll at which the time elapsed since
the entry timestamp is greater than 5 000 000 microseconds. -/
theorem alarme_dispara_apos_5s (st : Estado) (t0 : Nat) (leitura : Nat → ℚ × ℚ)
    (h_inativo : st.alarme_ativo = false) (h_idle : st.tempo_inicio_alerta = 0)
    (ht0 : 0 < t0) (hmax : t0 + 5200000 < 2 ^ 64)
    (hcrit : ∀ k, ¬ (20 ≤ (leitura k).1 ∧ (leitura k).1 ≤ 40) ∧
      ¬ (20 ≤ (leitura k).2 ∧ (leitura k).2 ≤ 80)) :
    (∀ n, n ≤ 26 → (sondagens_200ms t0 leitura n st).alarme_ativo = false) ∧
    (sondagens_200ms t0 leitura 27 st).alarme_ativo = true := by
  have inv := sondagens_200ms_inv st t0 leitura h_inativo h_idle ht0 hmax hcrit
  refine ⟨fun n hn => (inv n hn).1, ?_⟩
  obtain ⟨ha, ht⟩ := inv 26 (le_refl _)
  obtain ⟨_, ha'⟩ := atualizar_feedback_visual_critica (leitura 26).1 (leitura 26).2
    (t0 + 200000 * 26) (sondagens_200ms t0 leitura 26 st) (hcrit 26).1 (hcrit 26).2
  rw [sondagens_200ms_succ, ha', ht, ha]
  simp only [Nat.reduceEqDiff, if_false, Nat.ne_of_gt ht0]
  rw [sub64_of_le _ _ (by omega) (by omega)]
  have : t0 + 200000 * 26 - t0 > 5000000 := by omega
  simp [this]

/-- Witness of C2 (amended): `T = 45`, `H = 90`, `t0 = 1 s` after start-up; the
alarm is inactive after 26 polls and active after 27. -/
theorem alarme_dispara_apos_5s_witness :
    (sondagens_200ms 1000000 (fun _ => (45, 90)) 26 estado_inicial).alarme_ativo = false ∧
    (sondagens_200ms 1000000 (fun _ => (45, 90)) 27 estado_inicial).alarme_ativo = true :=
  ⟨(alarme_dispara_apos_5s estado_inicial 1000000 (fun _ => (45, 90)) rfl rfl (by decide)
      (by decide) (fun _ => (⟨by decide, by decide⟩ :
        ¬ (20 ≤ (45 : ℚ) ∧ (45 : ℚ) ≤ 40) ∧ ¬ (20 ≤ (90 : ℚ) ∧ (90 : ℚ) ≤ 80)))).1
      26 (le_refl _),
   (alarme_dispara_apos_5s estado_inicial 1000000 (fun _ => (45, 90)) rfl rfl (by decide)
      (by decide) (fun _ => (⟨by decide, by decide⟩ :
        ¬ (20 ≤ (45 : ℚ) ∧ (45 : ℚ) ≤ 40) ∧ ¬ (20 ≤ (90 : ℚ) ∧ (90 : ℚ) ≤ 80)))).2⟩

/-- Counterexample to C2 as stated: with `T = 45`, `H = 90` at every poll and
`t0 = 1000000`, the 26th poll is the one taken at `t0 + 5.0 s`, the elapsed time
is then 5 000 000 microseconds, and the alarm is still inactive after it. -/
theorem alarme_inativo_aos_5s :
    1000000 + 200000 * 25 = 1000000 + 5000000 ∧
    sub64 (1000000 + 200000 * 25) 1000000 ≥ 5000000 ∧
    (sondagens_200ms 1000000 (fun _ => (45, 90)) 26 estado_inicial).alarme_ativo = false :=
  ⟨by decide, by decide,
    (sondagens_200ms_inv estado_inicial 1000000 (fun _ => (45, 90)) rfl rfl (by decide)
      (by decide) (fun _ => (⟨by decide, by decide⟩ :
        ¬ (20 ≤ (45 : ℚ) ∧ (45 : ℚ) ≤ 40) ∧ ¬ (20 ≤ (90 : ℚ) ∧ (90 : ℚ) ≤ 80)))
      26 (le_refl _)).1⟩

/-! ## C3: a reading that is not critical resets the timer -/

/-- C3.  A poll whose reading is not critical (temperature in `[20, 40]` or
humidity in `[20, 80]`) leaves the alarm flag as it was and clears the recorded
start time, in every state and at every timestamp.  Consequently, from a state
with the alarm inactive and no start time recorded, a run `ps` of critical polls
at non-decreasing times less than 5 s apart never activates the alarm, neither
during the run nor at the non-critical poll that follows it; and the first
critical poll after that one records its own timestamp as the new start. -/
theorem leitura_nao_critica_reinicia (T H : ℚ) (agora : Nat) (st : Estado)
    (hnc : (20 ≤ T ∧ T ≤ 40) ∨ (20 ≤ H ∧ H ≤ 80)) :
    ((atualizar_feedback_visual T H agora st).alarme_ativo = st.alarme_ativo ∧
      (atualizar_feedback_visual T H agora st).tempo_inicio_alerta = 0) ∧
    (∀ (ps : List (Nat × ℚ × ℚ)) (s0 : Estado),
      s0.alarme_ativo = false → s0.tempo_inicio_alerta = 0 →
      (∀ p ∈ ps, p.1 < 2 ^ 64 ∧ ¬ (20 ≤ p.2.1 ∧ p.2.1 ≤ 40) ∧ ¬ (20 ≤ p.2.2 ∧ p.2.2 ≤ 80)) →
      ps.Pairwise (fun p q => p.1 ≤ q.1 ∧ q.1 < p.1 + 5000000) →
      (∀ n, (sondagens (ps.take n) s0).alarme_ativo = false) ∧
      (atualizar_feedback_visual T H agora (sondagens ps s0)).alarme_ativo = false ∧
      (atualizar_feedback_visual T H agora (sondagens ps s0)).tempo_inicio_alerta = 0 ∧
      ∀ (T2 H2 : ℚ) (t2 : Nat), ¬ (20 ≤ T2 ∧ T2 ≤ 40) → ¬ (20 ≤ H2 ∧ H2 ≤ 80) →
        (atualizar_feedback_visual T2 H2 t2
          (atualizar_feedback_visual T H agora (sondagens ps s0))).tempo_inicio_alerta = t2 ∧
        (atualizar_feedback_visual T2 H2 t2
          (atualizar_feedback_visual T H agora (sondagens ps s0))).alarme_ativo = false) := by
  refine ⟨atualizar_feedback_visual_nao_critica T H agora st hnc, ?_⟩
  intro ps s0 ha h0 hps hpw
  have hrun : ∀ n, (sondagens (ps.take n) s0).alarme_ativo = false := by
    intro n
    apply sondagens_sem_disparo _ _ ha
    · intro p hp
      exact hps p (List.mem_of_mem_take hp)
    · exact hpw.sublist (List.take_sublist n ps)
    · exact Or.inl h0
  have hend : (sondagens ps s0).alarme_ativo = false :=
    sondagens_sem_disparo _ _ ha hps hpw (Or.inl h0)
  obtain ⟨h1, h2⟩ := atualizar_feedback_visual_nao_critica T H agora (sondagens ps s0) hnc
  refine ⟨hrun, by rw [h1, hend], h2, ?_⟩
  intro T2 H2 t2 hT2 hH2
  obtain ⟨h3, h4⟩ := atualizar_feedback_visual_critica T2 H2 t2
    (atualizar_feedback_visual T H agora (sondagens ps s0)) hT2 hH2
  rw [h3, h4, h2, h1, hend]
  simp only [if_true]
  rw [sub64_self]
  simp

/-- Witness of C3: a critical run of 4.8 s from start-up (`T = 45`, `H = 90`,
polls at 1.0 s, 3.0 s and 5.8 s), then a reading `T = 25`, `H = 50`. -/
theorem leitura_nao_critica_reinicia_witness :
    (atualizar_feedback_visual 25 50 6000000
      (sondagens [(1000000, 45, 90), (3000000, 45, 90), (5800000, 45, 90)]
        estado_inicial)).alarme_ativo = false ∧
    (atualizar_feedback_visual 25 50 6000000
      (sondagens [(1000000, 45, 90), (3000000, 45, 90), (5800000, 45, 90)]
        estado_inicial)).tempo_inicio_alerta = 0 :=
  ⟨((leitura_nao_critica_reinicia 25 50 6000000 estado_inicial
      (Or.inl ⟨by decide, by decide⟩)).2
      [(1000000, 45, 90), (3000000, 45, 90), (5800000, 45, 90)] estado_inicial rfl rfl
      (by decide) (by decide)).2.1,
   ((leitura_nao_critica_reinicia 25 50 6000000 estado_inicial
      (Or.inl ⟨by decide, by decide⟩)).2
      [(1000000, 45, 90), (3000000, 45, 90), (5800000, 45, 90)] estado_inicial rfl rfl
      (by decide) (by decide)).2.2.1⟩

/-! ## C4: silencing the alarm and switching the mode -/

/-- C4 (amended).  In every state with the alarm active, a physical press that
`botao_modo_callback` accepts leaves the alarm inactive and the mode flag
unchanged; a network request `GET /toggle_modo` handled by `receber_dados_tcp`
negates the mode flag and leaves the alarm active. -/
theorem alternar_modo_com_alarme_ativo (st : Estado) (h_ativo : st.alarme_ativo = true) :
    (∀ gpio eventos agora : Nat, sub64 agora st.ultima_troca_modo > 300000 →
      (botao_modo_callback gpio eventos agora st).alarme_ativo = false ∧
      (botao_modo_callback gpio eventos agora st).modo_manual = st.modo_manual) ∧
    (∀ (fmt1 : ℚ → List Char) (tj ti u : ℚ) (payload : List Char),
      "GET /toggle_modo".toList <+: payload →
      (receber_dados_tcp fmt1 tj ti u (some payload) st).1.alarme_ativo = true ∧
      (receber_dados_tcp fmt1 tj ti u (some payload) st).1.modo_manual
        = !st.modo_manual) := by
  constructor
  · intro gpio eventos agora h
    simp [botao_modo_callback, h, h_ativo]
  · intro fmt1 tj ti u payload hp
    have h := (strncmp_toggle_modo payload).mpr hp
    simp only [receber_dados_tcp, h, if_true]
    exact ⟨h_ativo, trivial⟩

/-- Witness of C4 (amended): the start-up state with the alarm active, a press
at 1.0 s. -/
theorem alternar_modo_com_alarme_ativo_witness :
    (botao_modo_callback BOTAO_MODO 0 1000000
      { estado_inicial with alarme_ativo := true }).alarme_ativo = false ∧
    (botao_modo_callback BOTAO_MODO 0 1000000
      { estado_inicial with alarme_ativo := true }).modo_manual = false :=
  (alternar_modo_com_alarme_ativo { estado_inicial with alarme_ativo := true } rfl).1
    BOTAO_MODO 0 1000000 (by decide)

/-- Counterexample to C4 as stated: with the alarm active and the mode
automatic, the request `GET /toggle_modo HTTP/1.1` leaves the alarm active and
switches the mode to manual. -/
theorem toggle_modo_rede_nao_silencia :
    (receber_dados_tcp (fun _ => []) 0 25 50
      (some "GET /toggle_modo HTTP/1.1\r\n\r\n".toList)
      { estado_inicial with alarme_ativo := true }).1.alarme_ativo = true ∧
    (receber_dados_tcp (fun _ => []) 0 25 50
      (some "GET /toggle_modo HTTP/1.1\r\n\r\n".toList)
      { estado_inicial with alarme_ativo := true }).1.modo_manual = true ∧
    ({ estado_inicial with alarme_ativo := true } : Estado).modo_manual = false := by
  decide

/-! ## C5: debounce of the mode button -/

/-- C5 (amended).  With the alarm inactive, let a press at `t1` be accepted by
`botao_modo_callback` (the mode flips and the last-toggle timestamp becomes
`t1`) and let a second press come at `t2 ≥ t1`.  If `t2 - t1 ≤ 300 000`
microseconds the second press is ignored: the mode has flipped once and the
last-toggle timestamp stays `t1`.  If `t2 - t1 > 300 000` it is accepted: the
mode is back at its original value and the last-toggle timestamp is `t2`. -/
theorem botao_modo_debounce (st : Estado) (gpio1 ev1 gpio2 ev2 t1 t2 : Nat)
    (h_inativo : st.alarme_ativo = false) (h12 : t1 ≤ t2) (ht2 : t2 < 2 ^ 64)
    (h_aceito : sub64 t1 st.ultima_troca_modo > 300000) :
    ((botao_modo_callback gpio1 ev1 t1 st).modo_manual = !st.modo_manual ∧
      (botao_modo_callback gpio1 ev1 t1 st).ultima_troca_modo = t1) ∧
    (t2 - t1 ≤ 300000 →
      (botao_modo_callback gpio2 ev2 t2 (botao_modo_callback gpio1 ev1 t1 st)).modo_manual
        = !st.modo_manual ∧
      (botao_modo_callback gpio2 ev2 t2
        (botao_modo_callback gpio1 ev1 t1 st)).ultima_troca_modo = t1) ∧
    (t2 - t1 > 300000 →
      (botao_modo_callback gpio2 ev2 t2 (botao_modo_callback gpio1 ev1 t1 st)).modo_manual
        = st.modo_manual ∧
      (botao_modo_callback gpio2 ev2 t2
        (botao_modo_callback gpio1 ev1 t1 st)).ultima_troca_modo = t2) := by
  have hs1 : botao_modo_callback gpio1 ev1 t1 st
      = { printf ("Modo " ++ (if (!st.modo_manual) = true then "MANUAL" else "AUTOMÁTICO")
            ++ " ativado\n") { st with modo_manual := !st.modo_manual } with
          ultima_troca_modo := t1 } := by
    simp [botao_modo_callback, h_aceito, h_inativo]
  have hsub : sub64 t2 t1 = t2 - t1 := sub64_of_le _ _ h12 ht2
  refine ⟨by rw [hs1]; exact ⟨rfl, rfl⟩, ?_, ?_⟩
  · intro h
    have hn : ¬ (sub64 t2 t1 > 300000) := by rw [hsub]; omega
    rw [hs1]
    simp [botao_modo_callback, hn, printf]
  · intro h
    have hn : sub64 t2 t1 > 300000 := by rw [hsub]; exact h
    rw [hs1]
    simp [botao_modo_callback, hn, printf, h_inativo]

/-- Witness of C5 (amended): presses at 1.0 s and 1.5 s after start-up. -/
theorem botao_modo_debounce_witness :
    (botao_modo_callback BOTAO_MODO 0 1500000
      (botao_modo_callback BOTAO_MODO 0 1000000 estado_inicial)).modo_manual
      = estado_inicial.modo_manual ∧
    (botao_modo_callback BOTAO_MODO 0 1500000
      (botao_modo_callback BOTAO_MODO 0 1000000 estado_inicial)).ultima_troca_modo
      = 1500000 :=
  (botao_modo_debounce estado_inicial BOTAO_MODO 0 BOTAO_MODO 0 1000000 1500000 rfl
    (by decide) (by decide) (by decide)).2.2 (by decide)

/-- Counterexample to C5 as stated: presses at 1.0 s and 1.3 s after start-up
are exactly 300 ms apart and the first is accepted, yet the second is ignored:
the mode stays flipped (manual) and the last-toggle timestamp stays 1.0 s. -/
theorem botao_modo_ignora_aos_300ms :
    1300000 - 1000000 ≥ 300000 ∧
    (botao_modo_callback BOTAO_MODO 0 1000000 estado_inicial).modo_manual = true ∧
    (botao_modo_callback BOTAO_MODO 0 1300000
      (botao_modo_callback BOTAO_MODO 0 1000000 estado_inicial)).modo_manual = true ∧
    estado_inicial.modo_manual = false ∧
    (botao_modo_callback BOTAO_MODO 0 1300000
      (botao_modo_callback BOTAO_MODO 0 1000000 estado_inicial)).ultima_troca_modo
      = 1000000 := by
  decide

/-! ## C6: the latch -/

/-- C7 (amended).  When an active alarm is silenced by a press that
`botao_modo_callback` accepts, the alarm is inactive afterwards and the recorded
start time of the critical condition is what it was before the press.  If the
next poll is critical, it re-activates the alarm exactly when more than
5 000 000 microseconds have elapsed since that start time (since the poll
itself when none was recorded). -/
theorem silenciar_conserva_inicio (st : Estado) (gpio eventos agora : Nat)
    (h_ativo : st.alarme_ativo = true)
    (h_aceito : sub64 agora st.ultima_troca_modo > 300000) :
    (botao_modo_callback gpio eventos agora st).alarme_ativo = false ∧
    (botao_modo_callback gpio eventos agora st).tempo_inicio_alerta
      = st.tempo_inicio_alerta ∧
    ∀ (T H : ℚ) (t : Nat), ¬ (20 ≤ T ∧ T ≤ 40) → ¬ (20 ≤ H ∧ H ≤ 80) →
      ((atualizar_feedback_visual T H t
          (botao_modo_callback gpio eventos agora st)).alarme_ativo = true ↔
        sub64 t (if st.tempo_inicio_alerta = 0 then t else st.tempo_inicio_alerta)
          > 5000000) := by
  have h1 : (botao_modo_callback gpio eventos agora st).alarme_ativo = false := by
    simp [botao_modo_callback, h_aceito, h_ativo]
  have h2 : (botao_modo_callback gpio eventos agora st).tempo_inicio_alerta
      = st.tempo_inicio_alerta := by
    simp [botao_modo_callback, h_aceito, h_ativo]
  refine ⟨h1, h2, ?_⟩
  intro T H t hT hH
  obtain ⟨_, h4⟩ := atualizar_feedback_visual_critica T H t
    (botao_modo_callback gpio eventos agora st) hT hH
  rw [h4, h2, h1]
  by_cases h5 : sub64 t (if st.tempo_inicio_alerta = 0 then t else st.tempo_inicio_alerta)
      > 5000000
  · simp [h5]
  · simp [h5]

/-- Witness of C7 (amended): the alarm tripped by 27 critical polls from 1.0 s
on, silenced by a press at 8.0 s. -/
theorem silenciar_conserva_inicio_witness :
    (botao_modo_callback BOTAO_MODO 0 8000000
      (sondagens_200ms 1000000 (fun _ => (45, 90)) 27 estado_inicial)).alarme_ativo = false :=
  (silenciar_conserva_inicio (sondagens_200ms 1000000 (fun _ => (45, 90)) 27 estado_inicial)
    BOTAO_MODO 0 8000000 (by decide) (by decide)).1

/-- Counterexample to C7 as stated: the alarm is tripped by 27 critical polls
(`T = 45`, `H = 90`) from 1.0 s on and silenced by a press at 8.0 s.  After the
press the start time 1.0 s is still recorded, and the first poll after the
override, at 8.2 s with the same critical reading, activates the alarm again. -/
theorem alarme_redispara_apos_silenciar :
    (sondagens_200ms 1000000 (fun _ => (45, 90)) 27 estado_inicial).alarme_ativo = true ∧
    (botao_modo_callback BOTAO_MODO 0 8000000
      (sondagens_200ms 1000000 (fun _ => (45, 90)) 27 estado_inicial)).alarme_ativo = false ∧
    (botao_modo_callback BOTAO_MODO 0 8000000
      (sondagens_200ms 1000000 (fun _ => (45, 90)) 27
        estado_inicial)).tempo_inicio_alerta = 1000000 ∧
    (atualizar_feedback_visual 45 90 8200000
      (botao_modo_callback BOTAO_MODO 0 8000000
        (sondagens_200ms 1000000 (fun _ => (45, 90)) 27 estado_inicial))).alarme_ativo
      = true := by
  decide

/-! ## C8: colour of the RGB LED -/

/-- C8.  The poll `atualizar_feedback_visual` is made at the head of the loop
body of `main`, where the alarm is inactive in every configuration the firmware
reaches.  For every such configuration, reading `(T, H)` and timestamp, the PWM
levels (red, green, blue) left by the call are `(4095, 0, 0)` if the alarm is
active after it; `(0, 4095, 0)` if `20 ≤ T ≤ 40` and `20 ≤ H ≤ 80`;
`(4095, 4095, 0)` if exactly one of the two bands is violated; `(4095, 0, 0)`
if both are; blue is 0 in every case.  And in every configuration the firmware
reaches, whatever ran last, an active alarm has the levels `(4095, 0, 0)`. -/
theorem atualizar_feedback_visual_rgb :
    (∀ c (T H : ℚ) (agora : Nat), Alcancavel c → c.pc = PC.topo →
      let s := atualizar_feedback_visual T H agora c.st
      let rgb := (s.pwm LED_VERMELHO, s.pwm LED_VERDE, s.pwm LED_AZUL)
      c.st.alarme_ativo = false ∧
      (s.alarme_ativo = true → rgb = (4095, 0, 0)) ∧
      ((20 ≤ T ∧ T ≤ 40) ∧ (20 ≤ H ∧ H ≤ 80) → rgb = (0, 4095, 0)) ∧
      ((¬ (20 ≤ T ∧ T ≤ 40) ∧ (20 ≤ H ∧ H ≤ 80)) ∨
          ((20 ≤ T ∧ T ≤ 40) ∧ ¬ (20 ≤ H ∧ H ≤ 80)) → rgb = (4095, 4095, 0)) ∧
      (¬ (20 ≤ T ∧ T ≤ 40) ∧ ¬ (20 ≤ H ∧ H ≤ 80) → rgb = (4095, 0, 0)) ∧
      s.pwm LED_AZUL = 0) ∧
    (∀ c, Alcancavel c → c.st.alarme_ativo = true →
      (c.st.pwm LED_VERMELHO, c.st.pwm LED_VERDE, c.st.pwm LED_AZUL) = (4095, 0, 0)) := by
  constructor
  · intro c T H agora h hpc s rgb
    have h0 := (alcancavel_inv c h).1 hpc
    obtain ⟨h1, h2, h3, h4, h5⟩ := atualizar_feedback_visual_niveis T H agora c.st
    exact ⟨h0, h4 h0, h1, h2, h3, h5⟩
  · intro c h ha
    obtain ⟨h1, h2, h3⟩ := (alcancavel_inv c h).2 ha
    rw [h1, h2, h3]

/-- Witness of C8: `T = 25`, `H = 50` polled at start-up, alarm inactive, gives
pure green; the reached configuration `config_alarme`, alarm active, has pure
red. -/
theorem atualizar_feedback_visual_rgb_witness :
    ((atualizar_feedback_visual 25 50 1000000 config_inicial.st).pwm LED_VERMELHO,
     (atualizar_feedback_visual 25 50 1000000 config_inicial.st).pwm LED_VERDE,
     (atualizar_feedback_visual 25 50 1000000 config_inicial.st).pwm LED_AZUL)
      = (0, 4095, 0) ∧
    (config_alarme.st.pwm LED_VERMELHO, config_alarme.st.pwm LED_VERDE,
      config_alarme.st.pwm LED_AZUL) = (4095, 0, 0) :=
  ⟨(atualizar_feedback_visual_rgb.1 config_inicial 25 50 1000000 Alcancavel.inicio rfl).2.2.1
      ⟨⟨by decide, by decide⟩, ⟨by decide, by decide⟩⟩,
   atualizar_feedback_visual_rgb.2 config_alarme config_alarme_alcancavel (by decide)⟩
/-! ## C9: frame of the LED matrix -/

/-- The loop of `animacao_matriz_leds` pushes one word per index, in order. -/
theorem foldl_fifo (f : Nat → Nat) (l : List Nat) :
    ∀ m : Matriz,
      (l.foldl (fun m i => { valor_led := f i, fifo := m.fifo ++ [f i] }) m).fifo
        = m.fifo ++ l.map f := by
  induction l with
  | nil => intro m; simp
  | cons i l ih => intro m; simp [ih]

theorem to_uchar_zero : to_uchar (0 * 255) = 0 := by
  norm_num [to_uchar]

theorem to_uchar_one : to_uchar (1 * 255) = 255 := by
  norm_num [to_uchar]
  decide

/-- The values of `matrix_rgb` at the colours `animacao_matriz_leds` uses;
the arguments come in the order blue, red, green. -/
theorem matrix_rgb_valores :
    matrix_rgb 0 0 0 = 0 ∧ matrix_rgb 0 1 1 = 0xFFFF0000 ∧ matrix_rgb 0 0 1 = 0xFF000000 ∧
    matrix_rgb 1 0 0 = 0x0000FF00 ∧ matrix_rgb 0 1 0 = 0x00FF0000 := by
  simp only [matrix_rgb, to_uchar_zero, to_uchar_one]
  decide

/-- The frame `animacao_matriz_leds` pushes, word by word. -/
theorem animacao_matriz_leds_fifo (T : ℚ) (m : Matriz) :
    (animacao_matriz_leds T m).fifo = m.fifo ++ planta_matriz.map (fun tag =>
      if tag = 1 then (if T > 50 then 0x00FF0000 else if T < 10 then 0x0000FF00 else 0xFF000000)
      else if tag = 2 then 0xFFFF0000 else 0) := by
  by_cases h1 : T > 50
  · simp only [animacao_matriz_leds, h1, if_true]
    rw [foldl_fifo (fun i => if planta_matriz.getD i 0 = 1 then matrix_rgb 0 1 0
      else if planta_matriz.getD i 0 = 2 then matrix_rgb 0 1 1 else matrix_rgb 0 0 0)]
    congr 1
    simp only [matrix_rgb_valores]
    decide
  · by_cases h2 : T < 10
    · simp only [animacao_matriz_leds, h1, h2, if_true, if_false]
      rw [foldl_fifo (fun i => if planta_matriz.getD i 0 = 1 then matrix_rgb 1 0 0
        else if planta_matriz.getD i 0 = 2 then matrix_rgb 0 1 1 else matrix_rgb 0 0 0)]
      congr 1
      simp only [matrix_rgb_valores]
      decide
    · simp only [animacao_matriz_leds, h1, h2, if_false]
      rw [foldl_fifo (fun i => if planta_matriz.getD i 0 = 1 then matrix_rgb 0 0 1
        else if planta_matriz.getD i 0 = 2 then matrix_rgb 0 1 1 else matrix_rgb 0 0 0)]
      congr 1
      simp only [matrix_rgb_valores]
      decide

/-- C9 (amended).  For every temperature `T`, `animacao_matriz_leds` pushes
exactly 25 colour words, one per cell of `planta_matriz` in index order, each
packed as `G<<24 | R<<16 | B<<8`: a background cell (tag 0) is off, a pot cell
(tag 2) is yellow (`R = 255`, `G = 255`, `B = 0`), and a plant cell (tag 1) is
green `(0, 255, 0)` when `10 ≤ T ≤ 50`, blue `(0, 0, 255)` when `T < 10` and red
`(255, 0, 0)` when `T > 50`.  The function reads nothing but `T`. -/
theorem animacao_matriz_leds_quadro (T : ℚ) (m : Matriz) :
    let pack := fun R G B : Nat => (G <<< 24) ||| (R <<< 16) ||| (B <<< 8)
    let quadro := fun planta : Nat => planta_matriz.map (fun tag =>
      if tag = 1 then planta else if tag = 2 then pack 255 255 0 else pack 0 0 0)
    (10 ≤ T ∧ T ≤ 50 → (animacao_matriz_leds T m).fifo = m.fifo ++ quadro (pack 0 255 0)) ∧
    (T < 10 → (animacao_matriz_leds T m).fifo = m.fifo ++ quadro (pack 0 0 255)) ∧
    (T > 50 → (animacao_matriz_leds T m).fifo = m.fifo ++ quadro (pack 255 0 0)) ∧
    ∀ planta, (quadro planta).length = 25 := by
  intro pack quadro
  refine ⟨?_, ?_, ?_, ?_⟩
  · intro h
    have h1 : ¬ T > 50 := by intro h'; linarith [h.2]
    have h2 : ¬ T < 10 := by intro h'; linarith [h.1]
    rw [animacao_matriz_leds_fifo]
    simp only [h1, h2, if_false]
    rfl
  · intro h
    have h1 : ¬ T > 50 := by intro h'; linarith
    rw [animacao_matriz_leds_fifo]
    simp only [h1, h, if_false, if_true]
    rfl
  · intro h
    rw [animacao_matriz_leds_fifo]
    simp only [h, if_true]
    rfl
  · intro planta
    simp [quadro, planta_matriz]

/-- Witness of C9 (amended): `T = 5` gives blue plant cells. -/
theorem animacao_matriz_leds_quadro_witness :
    (animacao_matriz_leds 5 { valor_led := 0, fifo := [] }).fifo
      = [] ++ planta_matriz.map (fun tag =>
          if tag = 1 then (0 <<< 24) ||| (0 <<< 16) ||| (255 <<< 8)
          else if tag = 2 then (255 <<< 24) ||| (255 <<< 16) ||| (0 <<< 8)
          else (0 <<< 24) ||| (0 <<< 16) ||| (0 <<< 8)) :=
  (animacao_matriz_leds_quadro 5 { valor_led := 0, fifo := [] }).2.1 (by decide)

/-- Counterexample to C9 as stated: at `T = 25` the first word of the frame, a
pot cell (`planta_matriz[0] = 2`), is `0xFFFF0000`, that is `R = 255`,
`G = 255`, `B = 0` (yellow), not the packing of cyan `R = 0`, `G = 255`,
`B = 255`. -/
theorem vaso_amarelo :
    planta_matriz.head? = some 2 ∧
    (animacao_matriz_leds 25 { valor_led := 0, fifo := [] }).fifo.head?
      = some ((255 <<< 24) ||| (255 <<< 16) ||| (0 <<< 8)) ∧
    (animacao_matriz_leds 25 { valor_led := 0, fifo := [] }).fifo.head?
      ≠ some ((255 <<< 24) ||| (0 <<< 16) ||| (255 <<< 8)) := by
  rw [animacao_matriz_leds_fifo]
  decide

/-! ## C10: HTTP routing -/

/-- C10.  For every received payload `receber_dados_tcp` does one of two things.
If the payload begins with the 16 bytes `GET /toggle_modo`, the mode flag is
negated, nothing else of the state changes, and the response is exactly the
`303 See Other` redirect with `Location: /` and no body.  Otherwise, whatever the
payload, the state is unchanged and the response is the `200 OK` status page
with the current mode, the temperature of the selected sensor, the humidity and
the message of `interpretar_estado_planta`.  The alarm flag is unchanged in both
cases.  The formatter `%.1f` is taken to give at most 64 characters. -/
theorem receber_dados_tcp_rotas (fmt1 : ℚ → List Char) (tj ti u : ℚ) (payload : List Char)
    (st : Estado) (hfmt : ∀ x, NUL ∉ fmt1 x ∧ (fmt1 x).length ≤ 64) :
    ("GET /toggle_modo".toList <+: payload →
      receber_dados_tcp fmt1 tj ti u (some payload) st =
        ({ st with modo_manual := !st.modo_manual },
          some "HTTP/1.1 303 See Other\r\nLocation: /\r\nConnection: close\r\n\r\n".toList) ∧
      (receber_dados_tcp fmt1 tj ti u (some payload) st).1.alarme_ativo = st.alarme_ativo) ∧
    (¬ "GET /toggle_modo".toList <+: payload →
      (∀ msg, receber_dados_tcp fmt1 tj ti u (some payload) st =
        (st, some (pagina_html
          (if st.modo_manual then "Manual".toList else "Autom&aacute;tico".toList)
          (fmt1 (if st.modo_manual then tj else ti)) (fmt1 u)
          (cstr (interpretar_estado_planta (if st.modo_manual then tj else ti) u msg 64
            st))))) ∧
      (∃ resto, (receber_dados_tcp fmt1 tj ti u (some payload) st).2
        = some ("HTTP/1.1 200 OK\r\n".toList ++ resto))) := by
  constructor
  · intro hp
    have h := (strncmp_toggle_modo payload).mpr hp
    simp only [receber_dados_tcp, h, if_true]
    exact ⟨by rw [cstr_eq_self redirect (by decide)]; rfl, trivial⟩
  · intro hp
    have h : ¬ strncmp (payload ++ [NUL]) ("GET /toggle_modo".toList ++ [NUL]) 16 = 0 :=
      fun h => hp ((strncmp_toggle_modo payload).mp h)
    obtain ⟨m, hm, hcs⟩ := cstr_interpretar_estado_planta
      (if st.modo_manual then tj else ti) u st
    have hmodo : NUL ∉ (if st.modo_manual then "Manual".toList else "Autom&aacute;tico".toList)
        ∧ (if st.modo_manual then "Manual".toList else "Autom&aacute;tico".toList).length
          ≤ 17 := by
      cases st.modo_manual <;> decide
    have hpage := pagina_html_inteira _ _ _ _ hmodo (hfmt (if st.modo_manual then tj else ti))
      (hfmt u) (mensagens_html_limites m hm)
    have hres : ∀ msg, receber_dados_tcp fmt1 tj ti u (some payload) st =
        (st, some (pagina_html
          (if st.modo_manual then "Manual".toList else "Autom&aacute;tico".toList)
          (fmt1 (if st.modo_manual then tj else ti)) (fmt1 u)
          (cstr (interpretar_estado_planta (if st.modo_manual then tj else ti) u msg 64
            st)))) := by
      intro msg
      simp only [receber_dados_tcp, h, if_false, hcs, hpage]
    refine ⟨hres, ?_⟩
    have hp1 : "HTTP/1.1 200 OK\r\n".toList <+: pagina_parte1 :=
      ⟨pagina_parte1.drop 17, by decide⟩
    have hp2 : pagina_parte1 <+: pagina_html
        (if st.modo_manual then "Manual".toList else "Autom&aacute;tico".toList)
        (fmt1 (if st.modo_manual then tj else ti)) (fmt1 u)
        (cstr (interpretar_estado_planta (if st.modo_manual then tj else ti) u [] 64 st)) := by
      simp only [pagina_html, List.append_assoc]
      exact List.prefix_append _ _
    obtain ⟨r, hr⟩ := hp1.trans hp2
    exact ⟨r, by rw [hres [], hr]⟩


/-- Witness of C10: a toggle request and a request for `/` after start-up, the
internal sensor reading 25 and the humidity 50. -/
theorem receber_dados_tcp_rotas_witness :
    receber_dados_tcp (fun _ => "25.0".toList) 0 25 50
        (some "GET /toggle_modo HTTP/1.1\r\n\r\n".toList) estado_inicial =
      ({ estado_inicial with modo_manual := !estado_inicial.modo_manual },
        some "HTTP/1.1 303 See Other\r\nLocation: /\r\nConnection: close\r\n\r\n".toList) ∧
    receber_dados_tcp (fun _ => "25.0".toList) 0 25 50
        (some "GET / HTTP/1.1\r\n\r\n".toList) estado_inicial =
      (estado_inicial, some (pagina_html
        (if estado_inicial.modo_manual then "Manual".toList else "Autom&aacute;tico".toList)
        ((fun _ => "25.0".toList) (if estado_inicial.modo_manual then (0 : ℚ) else 25))
        ((fun _ => "25.0".toList) (50 : ℚ))
        (cstr (interpretar_estado_planta (if estado_inicial.modo_manual then 0 else 25) 50 []
          64 estado_inicial)))) :=
  ⟨((receber_dados_tcp_rotas (fun _ => "25.0".toList) 0 25 50
      "GET /toggle_modo HTTP/1.1\r\n\r\n".toList estado_inicial
      (fun _ => (by decide : NUL ∉ "25.0".toList ∧ "25.0".toList.length ≤ 64))).1
      (by decide)).1,
   ((receber_dados_tcp_rotas (fun _ => "25.0".toList) 0 25 50
      "GET / HTTP/1.1\r\n\r\n".toList estado_inicial
      (fun _ => (by decide : NUL ∉ "25.0".toList ∧ "25.0".toList.length ≤ 64))).2
      (by decide)).1 []⟩

end GreenLife
